import Mathlib

/-!
Verification of the partial-deadlock-detecting garbage collector
(`src/runtime/mgcmark.go`).  Machine integers (`uintptr`) are embedded as
`Nat` with explicit wrap-around (`% 2^64`) where Go arithmetic can wrap;
fallible code (Go `throw`/`panic`) is embedded into `Except String`.
-/

namespace GoGC

/-- 2^64, the modulus of Go's `uintptr` arithmetic on 64-bit targets. -/
def UPTR_MOD : Nat := 18446744073709551616

/-- All-ones 64-bit word; bitwise complement on `uintptr` is xor with it. -/
def UPTR_ONES : Nat := 18446744073709551615

/-- `GC_SKIP_MASK = uintptr(0x7000000000000000)` (mgcmark.go line 55). -/
def GC_SKIP_MASK : Nat := 0x7000000000000000

/-- `GC_UNDO_SKIP_MASK = ^GC_SKIP_MASK` — flips every bit of `GC_SKIP_MASK`
at `uintptr` width (mgcmark.go line 56). -/
def GC_UNDO_SKIP_MASK : Nat := GC_SKIP_MASK ^^^ UPTR_ONES

/-- `gc_ptr_is_masked(p)`: `(uintptr(p) & GC_SKIP_MASK) == GC_SKIP_MASK`
(mgcmark.go lines 72-74). -/
def gc_ptr_is_masked (p : Nat) : Bool :=
  (p &&& GC_SKIP_MASK) == GC_SKIP_MASK

/-- `gc_mask_ptr(p)` (mgcmark.go lines 76-81).  The branch condition is the
code's literal `!(debug.gcdetectdeadlocks != 0)` — the `FIXME: deploy change:
negation` comment notwithstanding, the code as written applies the mask when
`debug.gcdetectdeadlocks == 0`.  The flag is passed explicitly. -/
def gc_mask_ptr (gcdetectdeadlocks : Nat) (p : Nat) : Nat :=
  if ¬ (gcdetectdeadlocks ≠ 0) then p ||| GC_SKIP_MASK else p

/-- `gc_undo_mask_ptr(p)`: `uintptr(p) & GC_UNDO_SKIP_MASK`
(mgcmark.go lines 83-85). -/
def gc_undo_mask_ptr (p : Nat) : Nat :=
  p &&& GC_UNDO_SKIP_MASK

/-- Goroutine ("fiber") statuses referenced by the GC core.  Modelled from
the spec's state machine (§3, §4.9): the numeric `_Gxxx` constants live in
`runtime2.go`, outside the given sources; the claims depend only on the
statuses being distinct. -/
inductive GStatus where
  | idle
  | runnable
  | running
  | syscall
  | waiting
  | dead
  | copystack
  | preempted
  | unreachable
  | deadlocked
  deriving DecidableEq, Repr

/-- Wait reasons referenced by `unblockingWaitReason`.  Modelled from the
spec (§4.3): the `waitReasonXxx` constants live in `runtime2.go`, outside
the given sources.  `other` stands for any wait reason that is none of the
eleven blocking reasons singled out by the code. -/
inductive WaitReason where
  | zero
  | chanReceive
  | chanSend
  | chanReceiveNilChan
  | chanSendNilChan
  | select
  | selectNoCases
  | syncWaitGroupWait
  | syncMutexLock
  | syncRWMutexRLock
  | syncRWMutexLock
  | syncCondWait
  | sleep
  | semacquire
  | other
  deriving DecidableEq, Repr

/-- `unblockingWaitReason(reason)` (mgcmark.go lines 91-103): true iff the
reason differs from each of the eleven blocking reasons, in the code's
comparison order. -/
def unblockingWaitReason (reason : WaitReason) : Bool :=
  reason != WaitReason.chanReceive &&
  reason != WaitReason.syncWaitGroupWait &&
  reason != WaitReason.chanSend &&
  reason != WaitReason.chanReceiveNilChan &&
  reason != WaitReason.chanSendNilChan &&
  reason != WaitReason.select &&
  reason != WaitReason.selectNoCases &&
  reason != WaitReason.syncMutexLock &&
  reason != WaitReason.syncRWMutexRLock &&
  reason != WaitReason.syncRWMutexLock &&
  reason != WaitReason.syncCondWait

/-! ### Bitwise facts about the tag mask -/

/-- Pointwise form of `GC_UNDO_SKIP_MASK &&& GC_SKIP_MASK = 0`. -/
theorem undo_and_mask_testBit (i : Nat) :
    (GC_UNDO_SKIP_MASK.testBit i && GC_SKIP_MASK.testBit i) = false := by
  have h : GC_UNDO_SKIP_MASK &&& GC_SKIP_MASK = 0 := by decide
  have := congrArg (fun n => n.testBit i) h
  simpa [Nat.testBit_land] using this

/-- Pointwise form of `GC_UNDO_SKIP_MASK ||| GC_SKIP_MASK = 2^64 - 1`. -/
theorem undo_or_mask_testBit (i : Nat) :
    (GC_UNDO_SKIP_MASK.testBit i || GC_SKIP_MASK.testBit i) = decide (i < 64) := by
  have h : GC_UNDO_SKIP_MASK ||| GC_SKIP_MASK = 2 ^ 64 - 1 := by decide
  have h2 := congrArg (fun n => n.testBit i) h
  simp only [Nat.testBit_lor] at h2
  rw [h2, Nat.testBit_two_pow_sub_one]

/-- Setting the tag bits makes `gc_ptr_is_masked` true, for any word. -/
theorem is_masked_or_mask (x : Nat) :
    gc_ptr_is_masked (x ||| GC_SKIP_MASK) = true := by
  have h : (x ||| GC_SKIP_MASK) &&& GC_SKIP_MASK = GC_SKIP_MASK := by
    apply Nat.eq_of_testBit_eq
    intro i
    simp only [Nat.testBit_land, Nat.testBit_lor]
    cases h : GC_SKIP_MASK.testBit i <;> simp [h]
  simp [gc_ptr_is_masked, h]

/-- Clearing the tag bits makes `gc_ptr_is_masked` false, for any word. -/
theorem is_masked_undo (x : Nat) :
    gc_ptr_is_masked (gc_undo_mask_ptr x) = false := by
  have h : (x &&& GC_UNDO_SKIP_MASK) &&& GC_SKIP_MASK = 0 := by
    apply Nat.eq_of_testBit_eq
    intro i
    simp only [Nat.testBit_land, Nat.zero_testBit, Bool.and_assoc]
    rw [undo_and_mask_testBit i]
    simp
  have hne : (0 : Nat) ≠ GC_SKIP_MASK := by decide
  simp [gc_ptr_is_masked, gc_undo_mask_ptr, h, hne]

/-- A word with the tag bits set is at least `GC_SKIP_MASK`. -/
theorem mask_le_of_is_masked {x : Nat} (h : gc_ptr_is_masked x = true) :
    GC_SKIP_MASK ≤ x := by
  have hx : x &&& GC_SKIP_MASK = GC_SKIP_MASK := by
    simpa [gc_ptr_is_masked] using h
  calc GC_SKIP_MASK = x &&& GC_SKIP_MASK := hx.symm
    _ ≤ x := Nat.and_le_left

/-- Untag after tag clears exactly the tag bits: `(p ||| M) &&& ~M = p &&& ~M`. -/
theorem undo_or_mask (p : Nat) :
    (p ||| GC_SKIP_MASK) &&& GC_UNDO_SKIP_MASK = p &&& GC_UNDO_SKIP_MASK := by
  apply Nat.eq_of_testBit_eq
  intro i
  simp only [Nat.testBit_land, Nat.testBit_lor]
  have := undo_and_mask_testBit i
  cases hm : GC_SKIP_MASK.testBit i <;> cases hu : GC_UNDO_SKIP_MASK.testBit i <;>
    simp [hm, hu] at this ⊢

/-- Tag after untag sets exactly the tag bits, for 64-bit words:
`(p &&& ~M) ||| M = p ||| M` when `p < 2^64`. -/
theorem or_mask_undo (p : Nat) (hp : p < UPTR_MOD) :
    (p &&& GC_UNDO_SKIP_MASK) ||| GC_SKIP_MASK = p ||| GC_SKIP_MASK := by
  apply Nat.eq_of_testBit_eq
  intro i
  simp only [Nat.testBit_lor, Nat.testBit_land]
  by_cases hi : i < 64
  · have hor := undo_or_mask_testBit i
    cases hm : GC_SKIP_MASK.testBit i <;> cases hu : GC_UNDO_SKIP_MASK.testBit i <;>
      simp [hm, hu, hi] at hor ⊢
  · have hp64 : p < 2 ^ i := by
      calc p < UPTR_MOD := hp
        _ = 2 ^ 64 := by decide
        _ ≤ 2 ^ i := Nat.pow_le_pow_right (by decide) (Nat.le_of_not_lt hi)
    have hpb : p.testBit i = false := Nat.testBit_lt_two_pow hp64
    simp [hpb]

/-! ### Root snapshot: `allGsSnapshotSortedForGC` (mgcmark.go lines 113-161) -/

/-- A fiber as the snapshot code sees it: its address in `allgs` plus the
fields the partition loop reads (`readgstatus`, `waitreason`). -/
structure G where
  addr : Nat
  status : GStatus
  waitreason : WaitReason
  deriving Repr

instance : Inhabited G := ⟨⟨0, GStatus.idle, WaitReason.zero⟩⟩

/-- The test at mgcmark.go line 138 deciding that a fiber goes to the live
prefix: `status != _Gwaiting || unblockingWaitReason(gp.waitreason)`. -/
def isLiveG (gp : G) : Bool :=
  gp.status != GStatus.waiting || unblockingWaitReason gp.waitreason

/-- The partition loop of `allGsSnapshotSortedForGC` (mgcmark.go lines
125-145): walk `allgs`, writing live fibers at `currIndex` (ascending from
0) and blocked fibers — masked — at `blockedIndex` (descending from
`len-1`).  An `_Gunreachable` fiber aborts (`throw`, line 136). -/
def sortGsLoop (detect : Nat) :
    List G → Array Nat → Nat → Int → Except String (Array Nat × Nat × Int)
  | [], arr, curr, blocked => Except.ok (arr, curr, blocked)
  | gp :: rest, arr, curr, blocked =>
    if gp.status = GStatus.unreachable then
      Except.error "Found unreachable goroutines in allgs snapshot!"
    else if isLiveG gp then
      sortGsLoop detect rest (arr.setD curr (gc_undo_mask_ptr gp.addr)) (curr + 1) blocked
    else
      sortGsLoop detect rest
        (arr.setD blocked.toNat (gc_mask_ptr detect (gc_undo_mask_ptr gp.addr)))
        curr (blocked - 1)

/-- `allGsSnapshotSortedForGC` (mgcmark.go lines 113-161): run the partition
loop over a fresh array, panic if `currIndex != blockedIndex + 1` (line
151), and return the array together with `blockedIndex + 1`. -/
def allGsSnapshotSortedForGC (detect : Nat) (allgs : List G) :
    Except String (Array Nat × Nat) :=
  match sortGsLoop detect allgs (mkArray allgs.length 0) 0 ((allgs.length : Int) - 1) with
  | Except.error e => Except.error e
  | Except.ok (arr, curr, blocked) =>
    if (curr : Int) ≠ blocked + 1 then
      Except.error "currIndex and blockedIndex don't match up"
    else
      Except.ok (arr, (blocked + 1).toNat)

/-- Modelled from the spec: `allGsSnapshot` lives in `proc.go`, outside the
given sources.  Per the spec and the call-site comment ("regular GC ---
scan every go routine") it returns the plain snapshot of `allgs`, in order,
with no masking. -/
def allGsSnapshot (allgs : List G) : Array Nat :=
  (allgs.map (fun gp => gp.addr)).toArray

/-- The stack-root fields of `work` that `gcMarkRootPrepare` fills in. -/
structure StackRootsPrep where
  stackRoots : Array Nat
  nStackRoots : Nat
  nValidStackRoots : Nat
  deriving Repr, DecidableEq

/-- The stack-root portion of `gcMarkRootPrepare` (mgcmark.go lines
217-240).  The branch condition is the code's literal
`!(debug.gcdetectdeadlocks == 0)` (line 222, again marked
`FIXME: deploy change: negation`): for a nonzero flag it takes the plain
snapshot with `blockedIndex = len(allgsSorted)`; for a zero flag it takes
the sorted, masked snapshot. -/
def gcMarkRootPrepareStacks (detect : Nat) (allgs : List G) :
    Except String StackRootsPrep :=
  if ¬ (detect = 0) then
    let arr := allGsSnapshot allgs
    Except.ok ⟨arr, arr.size, arr.size⟩
  else
    match allGsSnapshotSortedForGC detect allgs with
    | Except.error e => Except.error e
    | Except.ok (arr, nv) => Except.ok ⟨arr, arr.size, nv⟩

/-! ### Characterization of the partition loop -/

/-- Element access after `Array.setD` at an in-bounds index. -/
theorem getElem!_setD (a : Array Nat) {i : Nat} (hi : i < a.size) (v : Nat)
    {j : Nat} (hj : j < a.size) :
    (a.setD i v)[j]! = if i = j then v else a[j]! := by
  have h1 : a.setD i v = a.set ⟨i, hi⟩ v := by simp [Array.setD, hi]
  have hj2 : j < (a.set ⟨i, hi⟩ v).size := by simpa using hj
  rw [h1, getElem!_pos (a.set ⟨i, hi⟩ v) j hj2, getElem!_pos a j hj]
  exact Array.get_set a ⟨i, hi⟩ j hj v

/-- Live fibers of a snapshot, in input order. -/
def liveList (l : List G) : List G := l.filter isLiveG

/-- Blocked fibers of a snapshot, in input order. -/
def blockedList (l : List G) : List G := l.filter (fun gp => !isLiveG gp)

/-- Full characterization of the partition loop: from a well-formed
accumulator state, on unreachable-free input, the loop succeeds; the live
fibers occupy `[curr, curr + #live)` in input order (unmasked); the blocked
fibers occupy `(blocked - #blocked, blocked]` in reverse input order
(masked); every other slot keeps its previous content. -/
theorem sortGsLoop_char (detect : Nat) :
    ∀ (rest : List G) (arr : Array Nat) (curr : Nat) (blocked : Int),
    (∀ gp ∈ rest, gp.status ≠ GStatus.unreachable) →
    (curr : Int) + rest.length = blocked + 1 →
    blocked < (arr.size : Int) →
    ∃ arr2, sortGsLoop detect rest arr curr blocked =
        Except.ok (arr2, curr + (liveList rest).length,
          blocked - (blockedList rest).length) ∧
      arr2.size = arr.size ∧
      (∀ j, j < curr → arr2[j]! = arr[j]!) ∧
      (∀ k, k < (liveList rest).length →
        arr2[curr + k]! = gc_undo_mask_ptr ((liveList rest)[k]!).addr) ∧
      (∀ k, k < (blockedList rest).length →
        arr2[(blocked - (k : Int)).toNat]! =
          gc_mask_ptr detect (gc_undo_mask_ptr ((blockedList rest)[k]!).addr)) ∧
      (∀ j : Nat, blocked < (j : Int) → j < arr.size → arr2[j]! = arr[j]!) := by
  intro rest
  induction rest with
  | nil =>
    intro arr curr blocked _ _ _
    refine ⟨arr, ?_, rfl, ?_, ?_, ?_, ?_⟩ <;>
      simp [sortGsLoop, liveList, blockedList]
  | cons gp rest ih =>
    intro arr curr blocked hnr harith hsz
    have hgp : gp.status ≠ GStatus.unreachable := hnr gp (List.mem_cons_self _ _)
    simp only [List.length_cons] at harith
    push_cast at harith
    have hnr2 : ∀ g ∈ rest, g.status ≠ GStatus.unreachable :=
      fun g hg => hnr g (List.mem_cons_of_mem _ hg)
    by_cases hl : isLiveG gp = true
    · -- live fiber: written at `curr`, which then advances
      have hcurrlt : curr < arr.size := by omega
      have hstep : sortGsLoop detect (gp :: rest) arr curr blocked =
          sortGsLoop detect rest (arr.setD curr (gc_undo_mask_ptr gp.addr))
            (curr + 1) blocked := by
        simp [sortGsLoop, hgp, hl]
      have h1 : liveList (gp :: rest) = gp :: liveList rest := by
        simp [liveList, List.filter_cons, hl]
      have h2 : blockedList (gp :: rest) = blockedList rest := by
        simp [blockedList, List.filter_cons, hl]
      obtain ⟨arr2, heq, hsize, hpre, hlive, hblk, htop⟩ :=
        ih (arr.setD curr (gc_undo_mask_ptr gp.addr)) (curr + 1) blocked hnr2
          (by push_cast; omega)
          (by rw [Array.size_setD]; exact hsz)
      rw [Array.size_setD] at hsize
      refine ⟨arr2, ?_, hsize, ?_, ?_, ?_, ?_⟩
      · have h3 : curr + (liveList (gp :: rest)).length =
            (curr + 1) + (liveList rest).length := by
          rw [h1, List.length_cons]; omega
        rw [hstep, h3, h2]
        exact heq
      · intro j hj
        rw [hpre j (by omega), getElem!_setD arr hcurrlt _ (by omega),
          if_neg (by omega)]
      · intro k hk
        rw [h1] at hk ⊢
        cases k with
        | zero =>
          simp only [List.getElem!_cons_zero, Nat.add_zero]
          rw [hpre curr (Nat.lt_succ_self _),
            getElem!_setD arr hcurrlt _ hcurrlt, if_pos rfl]
        | succ k2 =>
          simp only [List.getElem!_cons_succ]
          have hk2 : k2 < (liveList rest).length := by
            simp [List.length_cons] at hk; omega
          rw [show curr + (k2 + 1) = (curr + 1) + k2 by omega]
          exact hlive k2 hk2
      · intro k hk
        rw [h2] at hk ⊢
        exact hblk k hk
      · intro j hjb hjs
        rw [htop j hjb (by rw [Array.size_setD]; exact hjs),
          getElem!_setD arr hcurrlt _ hjs, if_neg (by omega)]
    · -- blocked fiber: written, masked, at `blocked`, which then retreats
      have hb0 : (0 : Int) ≤ blocked := by omega
      have hblt : blocked.toNat < arr.size := by omega
      have hstep : sortGsLoop detect (gp :: rest) arr curr blocked =
          sortGsLoop detect rest
            (arr.setD blocked.toNat (gc_mask_ptr detect (gc_undo_mask_ptr gp.addr)))
            curr (blocked - 1) := by
        simp [sortGsLoop, hgp, hl]
      have h1 : liveList (gp :: rest) = liveList rest := by
        simp [liveList, List.filter_cons, hl]
      have h2 : blockedList (gp :: rest) = gp :: blockedList rest := by
        simp [blockedList, List.filter_cons, hl]
      obtain ⟨arr2, heq, hsize, hpre, hlive, hblk, htop⟩ :=
        ih (arr.setD blocked.toNat (gc_mask_ptr detect (gc_undo_mask_ptr gp.addr)))
          curr (blocked - 1) hnr2
          (by omega)
          (by rw [Array.size_setD]; omega)
      rw [Array.size_setD] at hsize
      refine ⟨arr2, ?_, hsize, ?_, ?_, ?_, ?_⟩
      · have h3 : blocked - ((blockedList (gp :: rest)).length : Int) =
            (blocked - 1) - ((blockedList rest).length : Int) := by
          rw [h2, List.length_cons]; push_cast; ring
        rw [hstep, h1, h3]
        exact heq
      · intro j hj
        rw [hpre j hj, getElem!_setD arr hblt _ (by omega), if_neg (by omega)]
      · intro k hk
        rw [h1] at hk ⊢
        exact hlive k hk
      · intro k hk
        rw [h2] at hk ⊢
        cases k with
        | zero =>
          simp only [List.getElem!_cons_zero, Nat.cast_zero, sub_zero]
          rw [htop blocked.toNat (by omega) (by rw [Array.size_setD]; exact hblt),
            getElem!_setD arr hblt _ hblt, if_pos rfl]
        | succ k2 =>
          simp only [List.getElem!_cons_succ]
          have hk2 : k2 < (blockedList rest).length := by
            simp [List.length_cons] at hk; omega
          have hidx : (blocked - ((k2 + 1 : Nat) : Int)).toNat =
              ((blocked - 1) - (k2 : Int)).toNat := by push_cast; omega
          rw [hidx]
          exact hblk k2 hk2
      · intro j hjb hjs
        rw [htop j (by omega) (by rw [Array.size_setD]; exact hjs),
          getElem!_setD arr hblt _ hjs, if_neg (by omega)]

/-- Index bookkeeping of the partition loop: each processed fiber advances
exactly one of the two cursors, so `c - b` grows by exactly the number of
processed fibers; the array size never changes. -/
theorem sortGsLoop_ok_inv (detect : Nat) :
    ∀ (rest : List G) (arr : Array Nat) (curr : Nat) (blocked : Int)
      (arr2 : Array Nat) (c : Nat) (b : Int),
    sortGsLoop detect rest arr curr blocked = Except.ok (arr2, c, b) →
    (c : Int) - b = (curr : Int) - blocked + rest.length ∧ arr2.size = arr.size := by
  intro rest
  induction rest with
  | nil =>
    intro arr curr blocked arr2 c b h
    simp only [sortGsLoop, Except.ok.injEq, Prod.mk.injEq] at h
    obtain ⟨h1, h2, h3⟩ := h
    subst h1; subst h2; subst h3
    constructor <;> simp
  | cons gp rest ih =>
    intro arr curr blocked arr2 c b h
    simp only [sortGsLoop] at h
    by_cases hu : gp.status = GStatus.unreachable
    · simp [hu] at h
    · rw [if_neg hu] at h
      by_cases hl : isLiveG gp = true
      · rw [if_pos hl] at h
        obtain ⟨h1, h2⟩ := ih _ _ _ _ _ _ h
        rw [Array.size_setD] at h2
        refine ⟨?_, h2⟩
        simp only [List.length_cons]
        push_cast
        push_cast at h1
        omega
      · rw [if_neg hl] at h
        obtain ⟨h1, h2⟩ := ih _ _ _ _ _ _ h
        rw [Array.size_setD] at h2
        refine ⟨?_, h2⟩
        simp only [List.length_cons]
        push_cast
        omega

/-- The only `throw` inside the partition loop is the unreachable-fiber one. -/
theorem sortGsLoop_error_msg (detect : Nat) :
    ∀ (rest : List G) (arr : Array Nat) (curr : Nat) (blocked : Int) (e : String),
    sortGsLoop detect rest arr curr blocked = Except.error e →
    e = "Found unreachable goroutines in allgs snapshot!" := by
  intro rest
  induction rest with
  | nil =>
    intro arr curr blocked e h
    simp [sortGsLoop] at h
  | cons gp rest ih =>
    intro arr curr blocked e h
    simp only [sortGsLoop] at h
    by_cases hu : gp.status = GStatus.unreachable
    · rw [if_pos hu] at h
      simpa using h.symm
    · rw [if_neg hu] at h
      by_cases hl : isLiveG gp = true
      · rw [if_pos hl] at h
        exact ih _ _ _ _ h
      · rw [if_neg hl] at h
        exact ih _ _ _ _ h

/-- A successful partition run saw every fiber, so none was unreachable. -/
theorem sortGsLoop_ok_no_unreachable (detect : Nat) :
    ∀ (rest : List G) (arr : Array Nat) (curr : Nat) (blocked : Int)
      (arr2 : Array Nat) (c : Nat) (b : Int),
    sortGsLoop detect rest arr curr blocked = Except.ok (arr2, c, b) →
    ∀ gp ∈ rest, gp.status ≠ GStatus.unreachable := by
  intro rest
  induction rest with
  | nil =>
    intro arr curr blocked arr2 c b _ gp hmem
    simp at hmem
  | cons gp0 rest ih =>
    intro arr curr blocked arr2 c b h gp hmem
    simp only [sortGsLoop] at h
    by_cases hu : gp0.status = GStatus.unreachable
    · simp [hu] at h
    · rw [if_neg hu] at h
      rcases List.mem_cons.mp hmem with hgp | hgp
      · subst hgp; exact hu
      · by_cases hl : isLiveG gp0 = true
        · rw [if_pos hl] at h
          exact ih _ _ _ _ _ _ h gp hgp
        · rw [if_neg hl] at h
          exact ih _ _ _ _ _ _ h gp hgp

/-- Every fiber is either live or blocked, so the two filters partition the
snapshot. -/
theorem liveList_length_add_blockedList_length (l : List G) :
    (liveList l).length + (blockedList l).length = l.length := by
  induction l with
  | nil => simp [liveList, blockedList]
  | cons gp rest ih =>
    by_cases hl : isLiveG gp = true <;>
      simp [liveList, blockedList, List.filter_cons, hl] at ih ⊢ <;> omega

/-! ### Pointer-tagger and snapshot claims -/

/-- The eleven blocking wait reasons singled out by `unblockingWaitReason`
(mgcmark.go lines 91-103) and by the spec (§4.3). -/
def blockingReasons : List WaitReason :=
  [WaitReason.chanReceive, WaitReason.chanSend, WaitReason.chanReceiveNilChan,
   WaitReason.chanSendNilChan, WaitReason.select, WaitReason.selectNoCases,
   WaitReason.syncWaitGroupWait, WaitReason.syncMutexLock,
   WaitReason.syncRWMutexRLock, WaitReason.syncRWMutexLock,
   WaitReason.syncCondWait]

/-- A wait reason fails `unblockingWaitReason` exactly when it is one of
the eleven blocking reasons. -/
theorem unblocking_iff_not_blocking (r : WaitReason) :
    unblockingWaitReason r = false ↔ r ∈ blockingReasons := by
  cases r <;> decide

/-- **C2** (code_bug evidence): at `p = 8` the code as written *tags* the
pointer when `debug.gcdetectdeadlocks == 0` (detection disabled), and
leaves it unchanged when the flag is nonzero (detection enabled) — the
exact opposite of the claimed behaviour.  The inversion is flagged in the
source itself by `// FIXME: deploy change: negation` (mgcmark.go line 77). -/
theorem C2_gc_mask_ptr_polarity_inverted :
    gc_mask_ptr 0 8 = (8 ||| GC_SKIP_MASK) ∧
    gc_mask_ptr 1 8 = 8 ∧
    gc_mask_ptr 0 8 ≠ 8 ∧
    gc_mask_ptr 1 8 ≠ (8 ||| GC_SKIP_MASK) := by decide

/-- **C3** (code_bug evidence): with `debug.gcdetectdeadlocks = 0`
(detection disabled) and one channel-blocked fiber at address 16, the
stack-root preparation takes the sorted path (mgcmark.go line 222's
inverted condition): the lone stack root is stored with the tag bits set
and `nValidStackRoots = 0 ≠ 1 = nStackRoots`.  A nonzero flag value takes
the plain untagged path the claim describes for the disabled setting. -/
theorem C3_disabled_flag_still_tags :
    gcMarkRootPrepareStacks 0 [⟨16, GStatus.waiting, WaitReason.chanReceive⟩] =
      Except.ok ⟨#[0x7000000000000010], 1, 0⟩ ∧
    gc_ptr_is_masked 0x7000000000000010 = true ∧
    (0 : Nat) ≠ 1 ∧
    gcMarkRootPrepareStacks 2 [⟨16, GStatus.waiting, WaitReason.chanReceive⟩] =
      Except.ok ⟨#[16], 1, 1⟩ :=
  ⟨rfl, by decide, by decide, rfl⟩

/-- **C8** (counterexample): with the detection flag nonzero the tagger is
the identity, so `tag(untag(0)) = 0 ≠ 0 ||| TAG` — the first round-trip
equation does not hold "under every setting of the detection flag". -/
theorem C8_roundtrip_counterexample :
    gc_mask_ptr 1 (gc_undo_mask_ptr 0) ≠ (0 ||| GC_SKIP_MASK) := by decide

/-- **C8** (amended): `untag(tag(p)) = p & ~TAG` holds under every setting
of the detection flag; `tag(untag(p)) = p | TAG` holds under the settings
at which `gc_mask_ptr` masks (flag = 0 in the code as written), while for
the other settings `tag` is the identity and `tag(untag(p)) = p & ~TAG`. -/
theorem C8_roundtrip_amended (detect p : Nat) (hp : p < UPTR_MOD) :
    gc_undo_mask_ptr (gc_mask_ptr detect p) = p &&& GC_UNDO_SKIP_MASK ∧
    (detect = 0 → gc_mask_ptr detect (gc_undo_mask_ptr p) = (p ||| GC_SKIP_MASK)) ∧
    (detect ≠ 0 → gc_mask_ptr detect (gc_undo_mask_ptr p) = p &&& GC_UNDO_SKIP_MASK) := by
  refine ⟨?_, ?_, ?_⟩
  · by_cases hd : detect = 0
    · simp only [gc_mask_ptr, gc_undo_mask_ptr, hd]
      simp [undo_or_mask]
    · simp [gc_mask_ptr, gc_undo_mask_ptr, hd]
  · intro hd
    simp only [gc_mask_ptr, gc_undo_mask_ptr, hd]
    simp [or_mask_undo p hp]
  · intro hd
    simp [gc_mask_ptr, gc_undo_mask_ptr, hd]

/-- Witness for `C8_roundtrip_amended` at `detect = 0`, `p = 5`. -/
theorem C8_roundtrip_amended_witness :
    gc_undo_mask_ptr (gc_mask_ptr 0 5) = 5 &&& GC_UNDO_SKIP_MASK ∧
    ((0 : Nat) = 0 → gc_mask_ptr 0 (gc_undo_mask_ptr 5) = (5 ||| GC_SKIP_MASK)) ∧
    ((0 : Nat) ≠ 0 → gc_mask_ptr 0 (gc_undo_mask_ptr 5) = 5 &&& GC_UNDO_SKIP_MASK) :=
  C8_roundtrip_amended 0 5 (by decide)

/-- **C10**: the partition loop consumes each input fiber exactly once and
advances exactly one of the two cursors per fiber over an array of fixed
size `len(allgs)`, so at loop exit `currIndex = blockedIndex + 1` always
holds; consequently `allGsSnapshotSortedForGC` can fail only with the
unreachable-fiber throw, never with the
"currIndex and blockedIndex don't match up" panic. -/
theorem C10_partition_loop_exit :
    (∀ (detect : Nat) (allgs : List G) (arr2 : Array Nat) (c : Nat) (b : Int),
      sortGsLoop detect allgs (mkArray allgs.length 0) 0 ((allgs.length : Int) - 1) =
        Except.ok (arr2, c, b) →
      (c : Int) = b + 1 ∧ arr2.size = allgs.length) ∧
    (∀ (detect : Nat) (allgs : List G) (e : String),
      allGsSnapshotSortedForGC detect allgs = Except.error e →
      e = "Found unreachable goroutines in allgs snapshot!") := by
  constructor
  · intro detect allgs arr2 c b h
    obtain ⟨h1, h2⟩ := sortGsLoop_ok_inv detect allgs _ _ _ _ _ _ h
    rw [Array.size_mkArray] at h2
    push_cast at h1
    exact ⟨by omega, h2⟩
  · intro detect allgs e h
    unfold allGsSnapshotSortedForGC at h
    cases hres : sortGsLoop detect allgs (mkArray allgs.length 0) 0
        ((allgs.length : Int) - 1) with
    | error e2 =>
      rw [hres] at h
      simp only [Except.error.injEq] at h
      subst h
      exact sortGsLoop_error_msg detect allgs _ _ _ _ hres
    | ok triple =>
      obtain ⟨arrX, c0, b0⟩ := triple
      simp only [hres] at h
      obtain ⟨h1, _⟩ := sortGsLoop_ok_inv detect allgs _ _ _ _ _ _ hres
      push_cast at h1
      rw [if_neg (by omega)] at h
      simp at h

/-- Witness for `C10_partition_loop_exit` on the singleton snapshot
`[⟨8, running, zero⟩]`. -/
theorem C10_partition_loop_exit_witness :
    ((1 : Nat) : Int) = 0 + 1 ∧
      (#[(8 : Nat)] : Array Nat).size =
        [(⟨8, GStatus.running, WaitReason.zero⟩ : G)].length :=
  C10_partition_loop_exit.1 0 [⟨8, GStatus.running, WaitReason.zero⟩] #[8] 1 0
    rfl

/-- **C4**: in the sorted snapshot (taken with flag value 0, the only value
at which `gcMarkRootPrepare` invokes it), every `WAITING` fiber whose wait
reason is in the blocking set lands in the blocked suffix with its pointer
tagged; every fiber with any other status or an unblocking reason lands in
the live prefix; and the returned valid-root count is `blockedIndex + 1`. -/
theorem C4_blocked_suffix_tagged (allgs : List G) (arr : Array Nat) (nv : Nat)
    (hok : allGsSnapshotSortedForGC 0 allgs = Except.ok (arr, nv)) :
    (∀ r, unblockingWaitReason r = false ↔ r ∈ blockingReasons) ∧
    arr.size = allgs.length ∧
    (∀ gp ∈ allgs,
      (gp.status = GStatus.waiting ∧ gp.waitreason ∈ blockingReasons →
        ∃ j, nv ≤ j ∧ j < arr.size ∧
          arr[j]! = gc_mask_ptr 0 (gc_undo_mask_ptr gp.addr) ∧
          gc_ptr_is_masked (arr[j]!) = true) ∧
      ((gp.status ≠ GStatus.waiting ∨ gp.waitreason ∉ blockingReasons) →
        ∃ j, j < nv ∧ arr[j]! = gc_undo_mask_ptr gp.addr)) ∧
    (∀ (arr2 : Array Nat) (c : Nat) (b : Int),
      sortGsLoop 0 allgs (mkArray allgs.length 0) 0 ((allgs.length : Int) - 1) =
        Except.ok (arr2, c, b) →
      (nv : Int) = b + 1) := by
  unfold allGsSnapshotSortedForGC at hok
  cases hres : sortGsLoop 0 allgs (mkArray allgs.length 0) 0
      ((allgs.length : Int) - 1) with
  | error e =>
    rw [hres] at hok
    simp at hok
  | ok triple =>
    obtain ⟨arrX, c0, b0⟩ := triple
    simp only [hres] at hok
    obtain ⟨hinv, hsizeX⟩ := sortGsLoop_ok_inv 0 allgs _ _ _ _ _ _ hres
    push_cast at hinv
    rw [if_neg (by omega)] at hok
    simp only [Except.ok.injEq, Prod.mk.injEq] at hok
    obtain ⟨harr, hnv⟩ := hok
    subst harr
    have hnr := sortGsLoop_ok_no_unreachable 0 allgs _ _ _ _ _ _ hres
    obtain ⟨arr2, heq, hsize2, hpre, hlive, hblk, htop⟩ :=
      sortGsLoop_char 0 allgs (mkArray allgs.length 0) 0 ((allgs.length : Int) - 1)
        hnr (by push_cast; omega) (by rw [Array.size_mkArray]; omega)
    rw [hres] at heq
    simp only [Except.ok.injEq, Prod.mk.injEq] at heq
    obtain ⟨harr2, hc0, hb0⟩ := heq
    subst harr2
    have hpart := liveList_length_add_blockedList_length allgs
    rw [Array.size_mkArray] at hsize2
    have hnvlive : nv = (liveList allgs).length := by omega
    refine ⟨unblocking_iff_not_blocking, hsize2, ?_, ?_⟩
    · intro gp hgp
      constructor
      · rintro ⟨hw, hbr⟩
        have hub : unblockingWaitReason gp.waitreason = false :=
          (unblocking_iff_not_blocking _).mpr hbr
        have hlg : isLiveG gp = false := by simp [isLiveG, hw, hub]
        have hmem : gp ∈ blockedList allgs :=
          List.mem_filter.mpr ⟨hgp, by simp [hlg]⟩
        obtain ⟨k, hk, hkeq⟩ := List.getElem_of_mem hmem
        have hbk := hblk k hk
        rw [getElem!_pos (blockedList allgs) k hk, hkeq] at hbk
        refine ⟨((allgs.length : Int) - 1 - (k : Int)).toNat, by omega, by omega,
          ?_, ?_⟩
        · exact hbk
        · rw [hbk]
          have hm : gc_mask_ptr 0 (gc_undo_mask_ptr gp.addr) =
              gc_undo_mask_ptr gp.addr ||| GC_SKIP_MASK := by
            simp [gc_mask_ptr]
          rw [hm]
          exact is_masked_or_mask _
      · intro hlv
        have hlg : isLiveG gp = true := by
          rcases hlv with hst | hbr
          · simp [isLiveG, Bool.or_eq_true, bne_iff_ne]
            exact Or.inl hst
          · have h2 : ¬ (unblockingWaitReason gp.waitreason = false) :=
              fun hf => hbr ((unblocking_iff_not_blocking _).mp hf)
            have h3 : unblockingWaitReason gp.waitreason = true := by
              revert h2; cases unblockingWaitReason gp.waitreason <;> simp
            simp [isLiveG, Bool.or_eq_true, h3]
        have hmem : gp ∈ liveList allgs := List.mem_filter.mpr ⟨hgp, hlg⟩
        obtain ⟨k, hk, hkeq⟩ := List.getElem_of_mem hmem
        have hlk := hlive k hk
        rw [getElem!_pos (liveList allgs) k hk, hkeq] at hlk
        simp only [Nat.zero_add] at hlk
        exact ⟨k, by omega, hlk⟩
    · intro arr2' c b heq2
      simp only [Except.ok.injEq, Prod.mk.injEq] at heq2
      obtain ⟨_, _, hb⟩ := heq2
      omega

/-- Witness for `C4_blocked_suffix_tagged` on the singleton snapshot of a
channel-blocked fiber at address 16. -/
theorem C4_blocked_suffix_tagged_witness :
    (∀ r, unblockingWaitReason r = false ↔ r ∈ blockingReasons) ∧
    (#[(0x7000000000000010 : Nat)] : Array Nat).size =
      [(⟨16, GStatus.waiting, WaitReason.chanReceive⟩ : G)].length ∧
    (∀ gp ∈ [(⟨16, GStatus.waiting, WaitReason.chanReceive⟩ : G)],
      (gp.status = GStatus.waiting ∧ gp.waitreason ∈ blockingReasons →
        ∃ j, 0 ≤ j ∧ j < (#[(0x7000000000000010 : Nat)] : Array Nat).size ∧
          (#[(0x7000000000000010 : Nat)] : Array Nat)[j]! =
            gc_mask_ptr 0 (gc_undo_mask_ptr gp.addr) ∧
          gc_ptr_is_masked ((#[(0x7000000000000010 : Nat)] : Array Nat)[j]!) = true) ∧
      ((gp.status ≠ GStatus.waiting ∨ gp.waitreason ∉ blockingReasons) →
        ∃ j, j < 0 ∧
          (#[(0x7000000000000010 : Nat)] : Array Nat)[j]! = gc_undo_mask_ptr gp.addr)) ∧
    (∀ (arr2 : Array Nat) (c : Nat) (b : Int),
      sortGsLoop 0 [(⟨16, GStatus.waiting, WaitReason.chanReceive⟩ : G)]
        (mkArray [(⟨16, GStatus.waiting, WaitReason.chanReceive⟩ : G)].length 0) 0
        (([(⟨16, GStatus.waiting, WaitReason.chanReceive⟩ : G)].length : Int) - 1) =
        Except.ok (arr2, c, b) →
      ((0 : Nat) : Int) = b + 1) :=
  C4_blocked_suffix_tagged [⟨16, GStatus.waiting, WaitReason.chanReceive⟩]
    #[0x7000000000000010] 0 rfl

/-! ### Heap scanner: the word loop of `scanobject` (mgcmark.go 1902-1951) -/

/-- Per-worker grey-object work state.  `grey` records, in order, the
objects passed to `greyobject` (which marks and, for scannable objects,
enqueues them). -/
structure GcWork where
  bytesMarked : Nat
  heapScanWork : Int
  grey : List Nat
  deriving Repr, DecidableEq

/-- `uintptr` subtraction `a - b` with 64-bit wrap-around, as in the Go
expression `obj - b`. -/
def uintptrSub (a b : Nat) : Nat :=
  (a + UPTR_MOD - b % UPTR_MOD) % UPTR_MOD

/-- The word loop of `scanobject` (mgcmark.go lines 1902-1951).  `b` is the
object (or oblet) base, `n` its scan size, and `words` the
`(address, word value)` pairs the pointer-mask iterators (`tp.nextFast` /
`tp.next`) deliver, in order.  `findObj` abstracts `findObject` (0 = miss).
Per iteration: record the farthest scanned word into `scanSize`; skip nil
words and words pointing into the current object; **return immediately**
on a masked word (line 1931-1934), skipping the trailing
`gcw.bytesMarked += n; gcw.heapScanWork += scanSize` accounting (lines
1949-1950), which only runs when the iterator is exhausted.  The returned
flag tells whether the early return fired. -/
def scanobjectLoop (findObj : Nat → Nat) (b n : Nat) :
    List (Nat × Nat) → Nat → GcWork → GcWork × Bool
  | [], scanSize, gcw =>
    ({ gcw with bytesMarked := gcw.bytesMarked + n,
                heapScanWork := gcw.heapScanWork + (scanSize : Int) }, false)
  | (addr, obj) :: rest, _, gcw =>
    let scanSize := uintptrSub addr b + 8
    if obj ≠ 0 ∧ n ≤ uintptrSub obj b then
      if gc_ptr_is_masked obj then
        (gcw, true)
      else
        let f := findObj obj
        if f ≠ 0 then
          scanobjectLoop findObj b n rest scanSize { gcw with grey := gcw.grey ++ [f] }
        else
          scanobjectLoop findObj b n rest scanSize gcw
    else
      scanobjectLoop findObj b n rest scanSize gcw

/-- A masked word passes the nil/current-object filter: it is nonzero and
`obj - b >= n`, provided the scanned object lies below the tag region. -/
theorem masked_passes_filter {b n obj : Nat} (hm : gc_ptr_is_masked obj = true)
    (ho : obj < UPTR_MOD) (hb : b + n ≤ GC_SKIP_MASK) :
    obj ≠ 0 ∧ n ≤ uintptrSub obj b := by
  have hM : GC_SKIP_MASK ≤ obj := mask_le_of_is_masked hm
  have hM2 : GC_SKIP_MASK = 0x7000000000000000 := rfl
  have hU : UPTR_MOD = 18446744073709551616 := rfl
  unfold uintptrSub
  rw [hU]
  rw [hM2] at hM hb
  rw [hU] at ho
  constructor
  · omega
  · omega

/-- **C1**: if the word loop of `scanobject` extracts a tagged word, it
returns immediately — no `findObject`, no `greyobject`, no further words —
and, over any run, every object handed to `greyobject` comes from an
untagged extracted word; hence no heap object is ever marked or enqueued
from a tagged pointer. -/
theorem C1_scanobject_skips_tagged :
    (∀ (findObj : Nat → Nat) (b n addr obj : Nat) (rest : List (Nat × Nat))
       (s : Nat) (gcw : GcWork),
      gc_ptr_is_masked obj = true → obj < UPTR_MOD → b + n ≤ GC_SKIP_MASK →
      scanobjectLoop findObj b n ((addr, obj) :: rest) s gcw = (gcw, true)) ∧
    (∀ (findObj : Nat → Nat) (b n : Nat) (words : List (Nat × Nat))
       (s : Nat) (gcw : GcWork) (x : Nat),
      x ∈ (scanobjectLoop findObj b n words s gcw).1.grey →
      x ∈ gcw.grey ∨
        ∃ a o, (a, o) ∈ words ∧ gc_ptr_is_masked o = false ∧ findObj o = x) := by
  constructor
  · intro findObj b n addr obj rest s gcw hm ho hb
    have hf := masked_passes_filter hm ho hb
    simp only [scanobjectLoop]
    rw [if_pos hf, if_pos hm]
  · intro findObj b n words
    induction words with
    | nil =>
      intro s gcw x hx
      simp only [scanobjectLoop] at hx
      exact Or.inl hx
    | cons w rest ih =>
      obtain ⟨addr, obj⟩ := w
      intro s gcw x hx
      simp only [scanobjectLoop] at hx
      by_cases hflt : obj ≠ 0 ∧ n ≤ uintptrSub obj b
      · rw [if_pos hflt] at hx
        by_cases hm : gc_ptr_is_masked obj
        · rw [if_pos hm] at hx
          exact Or.inl hx
        · rw [if_neg hm] at hx
          by_cases hfo : findObj obj ≠ 0
          · rw [if_pos hfo] at hx
            rcases ih _ _ _ hx with hin | ⟨a, o, hao, hom, hfx⟩
            · simp only [List.mem_append, List.mem_singleton] at hin
              rcases hin with hin | hin
              · exact Or.inl hin
              · refine Or.inr ⟨addr, obj, List.mem_cons_self _ _, ?_, hin.symm⟩
                simpa using hm
            · exact Or.inr ⟨a, o, List.mem_cons_of_mem _ hao, hom, hfx⟩
          · rw [if_neg hfo] at hx
            rcases ih _ _ _ hx with hin | ⟨a, o, hao, hom, hfx⟩
            · exact Or.inl hin
            · exact Or.inr ⟨a, o, List.mem_cons_of_mem _ hao, hom, hfx⟩
      · rw [if_neg hflt] at hx
        rcases ih _ _ _ hx with hin | ⟨a, o, hao, hom, hfx⟩
        · exact Or.inl hin
        · exact Or.inr ⟨a, o, List.mem_cons_of_mem _ hao, hom, hfx⟩

/-- Witness for `C1_scanobject_skips_tagged` at the tagged word
`0x7000000000000000` scanned from base 0 with size 8. -/
theorem C1_scanobject_skips_tagged_witness :
    scanobjectLoop (fun _ => 0) 0 8 [(0, 0x7000000000000000)] 0
      ⟨0, 0, []⟩ = (⟨0, 0, []⟩, true) :=
  C1_scanobject_skips_tagged.1 (fun _ => 0) 0 8 0 0x7000000000000000 [] 0
    ⟨0, 0, []⟩ (by decide) (by decide) (by decide)

/-- **C9**: an early (masked-word) return from the `scanobject` word loop
leaves `gcw.bytesMarked` and `gcw.heapScanWork` untouched — the end-of-scan
accounting only runs on normal exhaustion — and the words after the tagged
one are never examined: the run's outcome is independent of them. -/
theorem C9_scanobject_early_return_frame :
    (∀ (findObj : Nat → Nat) (b n : Nat) (words : List (Nat × Nat))
       (s : Nat) (gcw : GcWork),
      (scanobjectLoop findObj b n words s gcw).2 = true →
      (scanobjectLoop findObj b n words s gcw).1.bytesMarked = gcw.bytesMarked ∧
      (scanobjectLoop findObj b n words s gcw).1.heapScanWork = gcw.heapScanWork ∧
      ∃ a o, (a, o) ∈ words ∧ gc_ptr_is_masked o = true) ∧
    (∀ (findObj : Nat → Nat) (b n addr obj : Nat)
       (rest rest2 : List (Nat × Nat)) (s : Nat) (gcw : GcWork),
      gc_ptr_is_masked obj = true → obj < UPTR_MOD → b + n ≤ GC_SKIP_MASK →
      scanobjectLoop findObj b n ((addr, obj) :: rest) s gcw =
        scanobjectLoop findObj b n ((addr, obj) :: rest2) s gcw) := by
  constructor
  · intro findObj b n words
    induction words with
    | nil =>
      intro s gcw h
      simp only [scanobjectLoop] at h
      exact Bool.noConfusion h
    | cons w rest ih =>
      obtain ⟨addr, obj⟩ := w
      intro s gcw h
      simp only [scanobjectLoop] at h ⊢
      by_cases hflt : obj ≠ 0 ∧ n ≤ uintptrSub obj b
      · rw [if_pos hflt] at h ⊢
        by_cases hm : gc_ptr_is_masked obj
        · rw [if_pos hm]
          exact ⟨rfl, rfl, addr, obj, List.mem_cons_self _ _, hm⟩
        · rw [if_neg hm] at h ⊢
          by_cases hfo : findObj obj ≠ 0
          · rw [if_pos hfo] at h ⊢
            obtain ⟨h1, h2, a, o, hao, hom⟩ := ih _ _ h
            exact ⟨h1, h2, a, o, List.mem_cons_of_mem _ hao, hom⟩
          · rw [if_neg hfo] at h ⊢
            obtain ⟨h1, h2, a, o, hao, hom⟩ := ih _ _ h
            exact ⟨h1, h2, a, o, List.mem_cons_of_mem _ hao, hom⟩
      · rw [if_neg hflt] at h ⊢
        obtain ⟨h1, h2, a, o, hao, hom⟩ := ih _ _ h
        exact ⟨h1, h2, a, o, List.mem_cons_of_mem _ hao, hom⟩
  · intro findObj b n addr obj rest rest2 s gcw hm ho hb
    have hf := masked_passes_filter hm ho hb
    simp only [scanobjectLoop]
    rw [if_pos hf, if_pos hm, if_pos hf, if_pos hm]

/-- Witness for `C9_scanobject_early_return_frame`: the run over the tagged
word `0x7000000000000000` returns early with the accounting untouched. -/
theorem C9_scanobject_early_return_frame_witness :
    (scanobjectLoop (fun _ => 0) 0 8 [(0, 0x7000000000000000)] 0
        ⟨3, 7, []⟩).1.bytesMarked = (3 : Nat) ∧
    (scanobjectLoop (fun _ => 0) 0 8 [(0, 0x7000000000000000)] 0
        ⟨3, 7, []⟩).1.heapScanWork = (7 : Int) ∧
    (∃ a o, (a, o) ∈ [((0 : Nat), (0x7000000000000000 : Nat))] ∧
      gc_ptr_is_masked o = true) :=
  C9_scanobject_early_return_frame.1 (fun _ => 0) 0 8 [(0, 0x7000000000000000)] 0
    ⟨3, 7, []⟩ (by decide)

/-! ### Drainer: `gcDrain` stop conditions (mgcmark.go 1488-1720) -/

/-- `gcDrainUntilPreempt` (mgcmark.go line 1491). -/
def gcDrainUntilPreempt : Nat := 1

/-- `gcDrainFlushBgCredit` (mgcmark.go line 1492). -/
def gcDrainFlushBgCredit : Nat := 2

/-- `gcDrainIdle` (mgcmark.go line 1493). -/
def gcDrainIdle : Nat := 4

/-- `gcDrainFractional` (mgcmark.go line 1494). -/
def gcDrainFractional : Nat := 8

/-- `gcDrainPartialDeadlock` (mgcmark.go line 1495). -/
def gcDrainPartialDeadlock : Nat := 16

/-- The flag word passed by `gcDrainMarkWorkerPartialDeadlocks`
(mgcmark.go lines 1516-1518):
`gcDrainFlushBgCredit | gcDrainPartialDeadlock`. -/
def gcDrainMarkWorkerPartialDeadlocksFlags : Nat :=
  gcDrainFlushBgCredit ||| gcDrainPartialDeadlock

/-- The guard shared by both drain loops (mgcmark.go lines 1638 and 1663):
`drainingPartialDeadlocks || !(gp.preempt && (preemptible ||
sched.gcwaiting.Load() || pp.runSafePointFn != 0))`. -/
def drainLoopGuard (flags : Nat) (preempt gcwaiting runSafePointFn : Bool) : Bool :=
  (flags &&& gcDrainPartialDeadlock != 0) ||
    !(preempt && ((flags &&& gcDrainUntilPreempt != 0) || gcwaiting || runSafePointFn))

/-- Whether `gcDrain` installs a self-preempt `check` function
(mgcmark.go lines 1599-1607): only in idle or fractional mode; otherwise
`check` stays `nil` and no poll ever runs. -/
def drainHasCheck (flags : Nat) : Bool :=
  flags &&& (gcDrainIdle ||| gcDrainFractional) != 0

/-- How the root-marking loop of `gcDrain` (lines 1609-1651) ends. -/
inductive RootDrainExit where
  /-- the loop guard failed: preempt with `gcDrainUntilPreempt`, pending
  stop-the-world, or pending safe-point function -/
  | stopCondition
  /-- `gcUpdateMarkrootNext` found no job left -/
  | noMoreWork
  /-- `check()` fired while draining partial deadlocks: `break` to the
  heap phase (line 1646) -/
  | polledBreak
  /-- `check()` fired otherwise: `goto done`, skipping the heap phase -/
  | polledDone
  deriving DecidableEq, Repr

/-- How the heap-scanning loop of `gcDrain` (lines 1663-1709) ends. -/
inductive HeapDrainExit where
  /-- the loop guard failed -/
  | stopCondition
  /-- `tryGetFast`, `tryGet` and the write-barrier flush all produced
  nothing (line 1686) -/
  | noMoreWork
  /-- `check()` fired after a credit flush (line 1705) -/
  | polled
  deriving DecidableEq, Repr

/-- The root phase of `gcDrain`.  `jobs` is the number of markroot jobs
this worker will still be able to claim; `preempt`, `gcwaiting`,
`runSafePointFn` and `poll` are adversarial per-iteration oracles for
`gp.preempt`, `sched.gcwaiting`, `pp.runSafePointFn` and the `check()`
outcome (the `checkWork`/`gcCreditSlack` bookkeeping is folded into the
oracle; when `drainHasCheck` is false, `check == nil` and the oracle is
never consulted). -/
def gcDrainRootLoop (flags : Nat) (preempt gcwaiting runSafePointFn poll : Nat → Bool) :
    Nat → Nat → RootDrainExit
  | jobs, k =>
    if !drainLoopGuard flags (preempt k) (gcwaiting k) (runSafePointFn k) then
      RootDrainExit.stopCondition
    else
      match jobs with
      | 0 => RootDrainExit.noMoreWork
      | jobs2 + 1 =>
        if drainHasCheck flags && poll k then
          if flags &&& gcDrainPartialDeadlock != 0 then RootDrainExit.polledBreak
          else RootDrainExit.polledDone
        else
          gcDrainRootLoop flags preempt gcwaiting runSafePointFn poll jobs2 (k + 1)

/-- The heap phase of `gcDrain`, on the same abstraction: `items` is the
number of work-buffer objects this worker will still obtain. -/
def gcDrainHeapLoop (flags : Nat) (preempt gcwaiting runSafePointFn poll : Nat → Bool) :
    Nat → Nat → HeapDrainExit
  | items, k =>
    if !drainLoopGuard flags (preempt k) (gcwaiting k) (runSafePointFn k) then
      HeapDrainExit.stopCondition
    else
      match items with
      | 0 => HeapDrainExit.noMoreWork
      | items2 + 1 =>
        if drainHasCheck flags && poll k then HeapDrainExit.polled
        else gcDrainHeapLoop flags preempt gcwaiting runSafePointFn poll items2 (k + 1)

/-- How one `gcDrain` invocation ends: `rootExit = none` when the root
phase was skipped (`markrootNext ≥ markrootJobs` on entry, line 1612);
`heapExit = none` when the root phase ended in `goto done`. -/
structure DrainOutcome where
  rootExit : Option RootDrainExit
  heapExit : Option HeapDrainExit
  deriving DecidableEq, Repr

/-- `gcDrain`'s phase structure (mgcmark.go lines 1580-1720): the root
phase (if root jobs remain), then — unless the root phase ended in
`goto done` — the heap phase. -/
def gcDrainModel (flags : Nat) (preempt gcwaiting runSafePointFn poll : Nat → Bool)
    (rootJobs heapItems : Nat) : DrainOutcome :=
  if rootJobs ≠ 0 then
    let re := gcDrainRootLoop flags preempt gcwaiting runSafePointFn poll rootJobs 0
    if re = RootDrainExit.polledDone then ⟨some re, none⟩
    else ⟨some re,
      some (gcDrainHeapLoop flags preempt gcwaiting runSafePointFn poll heapItems 0)⟩
  else ⟨none,
    some (gcDrainHeapLoop flags preempt gcwaiting runSafePointFn poll heapItems 0)⟩

/-- Under the partial-deadlock wrapper's flags the loop guard always
passes, whatever the preempt/STW/safe-point state. -/
theorem drainLoopGuard_pd_flags (p g s : Bool) :
    drainLoopGuard gcDrainMarkWorkerPartialDeadlocksFlags p g s = true := by
  have h : gcDrainMarkWorkerPartialDeadlocksFlags &&& gcDrainPartialDeadlock = 16 := by
    decide
  simp [drainLoopGuard, h]

/-- Under the partial-deadlock wrapper's flags no `check` function is
installed. -/
theorem drainHasCheck_pd_flags :
    drainHasCheck gcDrainMarkWorkerPartialDeadlocksFlags = false := by decide

/-- Under the wrapper's flags the root loop runs every remaining job and
stops only for lack of work. -/
theorem gcDrainRootLoop_pd (preempt gcwaiting runSafePointFn poll : Nat → Bool) :
    ∀ (jobs k : Nat),
    gcDrainRootLoop gcDrainMarkWorkerPartialDeadlocksFlags preempt gcwaiting
      runSafePointFn poll jobs k = RootDrainExit.noMoreWork := by
  intro jobs
  induction jobs with
  | zero =>
    intro k
    simp [gcDrainRootLoop, drainLoopGuard_pd_flags]
  | succ jobs2 ih =>
    intro k
    simp [gcDrainRootLoop, drainLoopGuard_pd_flags, drainHasCheck_pd_flags]
    exact ih (k + 1)

/-- Under the wrapper's flags the heap loop scans every obtainable object
and stops only for lack of work. -/
theorem gcDrainHeapLoop_pd (preempt gcwaiting runSafePointFn poll : Nat → Bool) :
    ∀ (items k : Nat),
    gcDrainHeapLoop gcDrainMarkWorkerPartialDeadlocksFlags preempt gcwaiting
      runSafePointFn poll items k = HeapDrainExit.noMoreWork := by
  intro items
  induction items with
  | zero =>
    intro k
    simp [gcDrainHeapLoop, drainLoopGuard_pd_flags]
  | succ items2 ih =>
    intro k
    simp [gcDrainHeapLoop, drainLoopGuard_pd_flags, drainHasCheck_pd_flags]
    exact ih (k + 1)

/-- **C7**: a `gcDrain` invocation with the partial-deadlock wrapper's
flags never leaves either loop because of the preempt flag, a pending
stop-the-world, a pending safe-point function, or a self-preempt poll —
whatever those signals do, both phases end in `noMoreWork`; and, for any
flag word with the `PARTIAL_DEADLOCK` bit set, the shared stop-condition
guard passes unconditionally. -/
theorem C7_partial_deadlock_drain_runs_to_completion :
    (∀ (preempt gcwaiting runSafePointFn poll : Nat → Bool)
       (rootJobs heapItems : Nat),
      (rootJobs ≠ 0 →
        (gcDrainModel gcDrainMarkWorkerPartialDeadlocksFlags preempt gcwaiting
          runSafePointFn poll rootJobs heapItems).rootExit =
        some RootDrainExit.noMoreWork) ∧
      (gcDrainModel gcDrainMarkWorkerPartialDeadlocksFlags preempt gcwaiting
        runSafePointFn poll rootJobs heapItems).heapExit =
        some HeapDrainExit.noMoreWork) ∧
    (∀ (flags : Nat) (preempt gcwaiting runSafePointFn : Bool),
      flags &&& gcDrainPartialDeadlock ≠ 0 →
      drainLoopGuard flags preempt gcwaiting runSafePointFn = true) := by
  constructor
  · intro preempt gcwaiting runSafePointFn poll rootJobs heapItems
    have hroot := gcDrainRootLoop_pd preempt gcwaiting runSafePointFn poll rootJobs 0
    have hheap := gcDrainHeapLoop_pd preempt gcwaiting runSafePointFn poll heapItems 0
    by_cases hj : rootJobs ≠ 0
    · constructor
      · intro _
        simp [gcDrainModel, hj, hroot]
      · simp [gcDrainModel, hj, hroot, hheap]
    · constructor
      · intro hc
        exact absurd hc hj
      · simp [gcDrainModel, hj, hheap]
  · intro flags preempt gcwaiting runSafePointFn hpd
    have h : (flags &&& gcDrainPartialDeadlock != 0) = true := by
      simpa [bne_iff_ne] using hpd
    simp [drainLoopGuard, h]

/-- Witness for `C7_partial_deadlock_drain_runs_to_completion` with every
signal stuck `true`, one root job and one heap object. -/
theorem C7_partial_deadlock_drain_witness :
    ((1 : Nat) ≠ 0 →
      (gcDrainModel gcDrainMarkWorkerPartialDeadlocksFlags (fun _ => true)
        (fun _ => true) (fun _ => true) (fun _ => true) 1 1).rootExit =
      some RootDrainExit.noMoreWork) ∧
    (gcDrainModel gcDrainMarkWorkerPartialDeadlocksFlags (fun _ => true)
      (fun _ => true) (fun _ => true) (fun _ => true) 1 1).heapExit =
      some HeapDrainExit.noMoreWork :=
  C7_partial_deadlock_drain_runs_to_completion.1 (fun _ => true) (fun _ => true)
    (fun _ => true) (fun _ => true) 1 1

/-! ### Deadlock reclaimer: `gc_sema_dequeue`, `gc_goexit0`, `gcGoexit`,
and `markroot`'s unreachable-fiber policy (mgcmark.go 291-643) -/

/-- A waiter record (`sudog`), with the fields the reclaimer touches.
Pointer-valued fields hold addresses (`none` = nil). -/
structure Sudog where
  g : Option Nat
  isSelect : Bool
  elem : Option Nat
  c : Option Nat
  next : Option Nat
  prev : Option Nat
  parent : Option Nat
  waitlink : Option Nat
  waittail : Option Nat
  ticket : Nat
  deriving Repr, DecidableEq

/-- A fiber as the reclaimer sees it.  `semaWaiter` and `notifWaiter`
stand for the waiter registered for this fiber in the global sema treap
(under the `waiting_sema` address) and on the notifier list: the global
structures are passed explicitly, per the spec's design note on global
mutable state.  `defers` is the length of the `_defer` chain; `waiting`
is the `gp.waiting` sudog chain in `waitlink` order. -/
structure GFiber where
  addr : Nat
  status : GStatus
  waitreason : WaitReason
  lockedm : Nat
  m : Option Nat
  defers : Nat
  waiting_sema : Option Nat
  semaWaiter : Option Sudog
  waiting_notifier : Option Nat
  notifWaiter : Option Sudog
  waiting : List Sudog
  deriving Repr, DecidableEq

/-- `gc_sema_dequeue` (mgcmark.go lines 291-401), restricted to its effect
on the removed waiter: the treap search and rotations relink *other*
nodes; the waiter found for `gp` (supplied explicitly, `none` when the
search would fail) leaves with `waitlink`, `waittail` (lines 366-367 /
chain tail), `parent`, `elem`, `next`, `prev` cleared and `ticket` zeroed
(lines 391-395) — its `g` field still set.  A waiter for a different
fiber is the `throw` at line 337. -/
def gc_sema_dequeue (gpAddr : Nat) (waiter : Option Sudog) : Except String Sudog :=
  match waiter with
  | none => Except.error "The unreachable goroutine not found in the semTable!"
  | some target =>
    if target.g ≠ some gpAddr then
      Except.error "Targetted wrong sudog node."
    else
      Except.ok ({ target with waitlink := none, waittail := none,
                               parent := none, elem := none, next := none,
                               prev := none, ticket := 0 })

/-- Modelled from the spec: `gc_notifyListNotifyOne` is not among the
given sources.  Per §4.8 step 4 it dequeues the waiter registered for the
fiber on the notifier list (`nil` when absent); the not-found/mismatch
checks live in its caller (mgcmark.go lines 446-449). -/
def gc_notifyListNotifyOne (notifWaiter : Option Sudog) : Option Sudog :=
  notifWaiter

/-- The per-waiter clearing of the `gp.waiting` release loop
(mgcmark.go lines 476-481): `isSelect`, `elem`, `c`, `waitlink`, `next`,
`prev` are cleared; the `g` field is **not** touched. -/
def clearChainSudog (sg : Sudog) : Sudog :=
  { sg with isSelect := false, elem := none, c := none, waitlink := none,
            next := none, prev := none }

/-- The `gp.waiting` walk of `gc_goexit0` (mgcmark.go lines 473-483):
each sudog on the chain is cleared and handed to `releaseSudog`, in chain
order. -/
def gc_release_waiting : List Sudog → List Sudog
  | [] => []
  | sg :: rest => clearChainSudog sg :: gc_release_waiting rest

/-- The sema step of `gc_goexit0` (mgcmark.go lines 432-441): when
`gp.waiting_sema != nil`, dequeue the waiter, re-check its `g` field
(line 436), then clear `g` (line 439) before `releaseSudog`.  Returns the
sudogs handed to `releaseSudog` by this step. -/
def goexitSemaStep (gp : GFiber) : Except String (List Sudog) :=
  match gp.waiting_sema with
  | none => Except.ok []
  | some _ =>
    (gc_sema_dequeue gp.addr gp.semaWaiter).bind fun s =>
      if s.g ≠ some gp.addr then Except.error "Targetted wrong sudog!"
      else Except.ok [{ s with g := none }]

/-- The notifier step of `gc_goexit0` (mgcmark.go lines 444-452): when
`gp.waiting_notifier != nil`, dequeue via `gc_notifyListNotifyOne`, fail
hard on `nil` or mismatch (line 447), then clear `g` (line 450) before
`releaseSudog`. -/
def goexitNotifierStep (gp : GFiber) : Except String (List Sudog) :=
  match gp.waiting_notifier with
  | none => Except.ok []
  | some _ =>
    match gc_notifyListNotifyOne gp.notifWaiter with
    | none => Except.error "Targetted wrong sudog!"
    | some s =>
      if s.g ≠ some gp.addr then Except.error "Targetted wrong sudog!"
      else Except.ok [{ s with g := none }]

/-- `gc_goexit0` (mgcmark.go lines 406-501): re-check the status, move the
fiber to `_Gdead`, check `m`/`lockedm`, run the sema and notifier
dequeues, blank-slate the fiber's transient fields (lines 455-471),
release the `gp.waiting` chain, and hand the fiber to the free pool
(`gfput`).  Returns the blank-slated fiber, the sudogs passed to
`releaseSudog` in program order, and whether `gfput` was reached.
Worker-thread (`mp`) assertions, scan-space accounting and the assist
credit flush touch state outside the fiber and are not modelled. -/
def gc_goexit0 (gp : GFiber) : Except String (GFiber × List Sudog × Bool) :=
  if gp.status ≠ GStatus.unreachable then
    Except.error "Unreachable goroutine changed status!"
  else if gp.m ≠ none then
    Except.error "Unrechable goroutine has a non-nil m!"
  else if gp.lockedm ≠ 0 then
    Except.error "Unreachable goroutine has locked a thread!"
  else
    (goexitSemaStep gp).bind fun rsema =>
      (goexitNotifierStep gp).bind fun rnotif =>
        Except.ok
          ({ gp with status := GStatus.dead, lockedm := 0,
                     waitreason := WaitReason.zero, defers := 0,
                     waiting_sema := none, semaWaiter := none,
                     waiting_notifier := none, notifWaiter := none,
                     waiting := [] },
            rsema ++ rnotif ++ gc_release_waiting gp.waiting, true)

/-- The defer-popping loop of `gcGoexit` (mgcmark.go lines 513-520). -/
def popDefers : Nat → Nat
  | 0 => 0
  | n + 1 => popDefers n

/-- `gcGoexit` (mgcmark.go lines 505-522): push a synthetic goexit panic
record, pop every deferred call, then `gc_goexit0`. -/
def gcGoexit (gp : GFiber) : Except String (GFiber × List Sudog × Bool) :=
  gc_goexit0 { gp with defers := popDefers gp.defers }

/-- The `_Gunreachable` policy selector of `markroot`'s stack-root case
(mgcmark.go lines 589-599): flag value 0 runs `gcGoexit` (the literal
`case 0:` carries `// FIXME: deploy change: case 1:`); flag value 2 moves
the fiber to `_Gdeadlocked` without reclaiming; any other value is the
fatal `throw`.  Fibers in any other status are untouched by this step. -/
def markrootUnreachableStep (detect : Nat) (gp : GFiber) :
    Except String (GFiber × List Sudog × Bool) :=
  if gp.status = GStatus.unreachable then
    if detect = 0 then gcGoexit gp
    else if detect = 2 then
      Except.ok ({ gp with status := GStatus.deadlocked }, [], false)
    else Except.error "unreachable goroutine found during regular GC"
  else Except.ok (gp, [], false)

/-- The sema step succeeds, with `g` cleared on everything it releases,
whenever the treap holds a matching waiter for the fiber. -/
theorem goexitSemaStep_ok (gp : GFiber)
    (h : ∀ a, gp.waiting_sema = some a →
      ∃ s, gp.semaWaiter = some s ∧ s.g = some gp.addr) :
    ∃ l, goexitSemaStep gp = Except.ok l ∧ ∀ s ∈ l, s.g = none := by
  cases hws : gp.waiting_sema with
  | none => exact ⟨[], by simp [goexitSemaStep, hws], by simp⟩
  | some a =>
    obtain ⟨s, hs, hsg⟩ := h a hws
    refine ⟨[{ ({ s with waitlink := none, waittail := none,
                         parent := none, elem := none, next := none,
                         prev := none, ticket := 0 } : Sudog) with
               g := none }], ?_, ?_⟩
    · simp [goexitSemaStep, hws, hs, gc_sema_dequeue, hsg, Except.bind]
    · intro s2 hs2
      simp only [List.mem_singleton] at hs2
      subst hs2
      rfl

/-- The notifier step succeeds, with `g` cleared on everything it
releases, whenever the notifier list holds a matching waiter. -/
theorem goexitNotifierStep_ok (gp : GFiber)
    (h : ∀ a, gp.waiting_notifier = some a →
      ∃ s, gp.notifWaiter = some s ∧ s.g = some gp.addr) :
    ∃ l, goexitNotifierStep gp = Except.ok l ∧ ∀ s ∈ l, s.g = none := by
  cases hwn : gp.waiting_notifier with
  | none => exact ⟨[], by simp [goexitNotifierStep, hwn], by simp⟩
  | some a =>
    obtain ⟨s, hs, hsg⟩ := h a hwn
    refine ⟨[{ s with g := none }], ?_, ?_⟩
    · simp [goexitNotifierStep, hwn, gc_notifyListNotifyOne, hs, hsg]
    · intro s2 hs2
      simp only [List.mem_singleton] at hs2
      subst hs2
      rfl

/-- Successful-run characterization of `gc_goexit0`: the fiber is
blank-slated to `_Gdead` and pooled; the released sudogs are the sema and
notifier waiters (with `g` cleared) followed by the cleared `gp.waiting`
chain. -/
theorem gc_goexit0_spec (gp : GFiber)
    (hu : gp.status = GStatus.unreachable) (hm : gp.m = none) (hl : gp.lockedm = 0)
    (hsema : ∀ a, gp.waiting_sema = some a →
      ∃ s, gp.semaWaiter = some s ∧ s.g = some gp.addr)
    (hnotif : ∀ a, gp.waiting_notifier = some a →
      ∃ s, gp.notifWaiter = some s ∧ s.g = some gp.addr) :
    ∃ pre, gc_goexit0 gp = Except.ok
        ({ gp with status := GStatus.dead, lockedm := 0,
                   waitreason := WaitReason.zero, defers := 0,
                   waiting_sema := none, semaWaiter := none,
                   waiting_notifier := none, notifWaiter := none,
                   waiting := [] },
          pre ++ gc_release_waiting gp.waiting, true) ∧
      ∀ s ∈ pre, s.g = none := by
  obtain ⟨ls, hls, hlsg⟩ := goexitSemaStep_ok gp hsema
  obtain ⟨ln, hln, hlng⟩ := goexitNotifierStep_ok gp hnotif
  refine ⟨ls ++ ln, ?_, ?_⟩
  · simp [gc_goexit0, hu, hm, hl, hls, hln, Except.bind, List.append_assoc]
  · intro s hs
    rcases List.mem_append.mp hs with h | h
    exacts [hlsg s h, hlng s h]

/-- The preconditions under which the reclaimer's own assertions cannot
fire: no bound worker thread, no OS-thread lock, and each wait structure
the fiber is parked on holds a waiter whose `g` field is this fiber. -/
def reclaimConsistent (gp : GFiber) : Prop :=
  gp.m = none ∧ gp.lockedm = 0 ∧
  (∀ a, gp.waiting_sema = some a →
    ∃ s, gp.semaWaiter = some s ∧ s.g = some gp.addr) ∧
  (∀ a, gp.waiting_notifier = some a →
    ∃ s, gp.notifWaiter = some s ∧ s.g = some gp.addr)

/-- **C5**: for a stack root in `_Gunreachable`, the policy selector runs
`gcGoexit` and reclaims the fiber (it ends `_Gdead`, in the free pool)
when the flag is 0 (detection disabled, per the claim's reading); moves it
to `_Gdeadlocked` without reclaiming when the flag is 2; and is the fatal
throw for every other flag value. -/
theorem C5_markroot_unreachable_policy (detect : Nat) (gp : GFiber)
    (hu : gp.status = GStatus.unreachable) (hc : reclaimConsistent gp) :
    (detect = 0 → ∃ gp2 rel,
      markrootUnreachableStep detect gp = Except.ok (gp2, rel, true) ∧
      gp2.status = GStatus.dead) ∧
    (detect = 2 → markrootUnreachableStep detect gp =
      Except.ok ({ gp with status := GStatus.deadlocked }, [], false)) ∧
    (detect ≠ 0 → detect ≠ 2 → markrootUnreachableStep detect gp =
      Except.error "unreachable goroutine found during regular GC") := by
  obtain ⟨hm, hl, hsema, hnotif⟩ := hc
  refine ⟨?_, ?_, ?_⟩
  · intro hd
    subst hd
    obtain ⟨pre, heq, _⟩ :=
      gc_goexit0_spec { gp with defers := popDefers gp.defers } hu hm hl hsema hnotif
    have hstep : markrootUnreachableStep 0 gp =
        gc_goexit0 { gp with defers := popDefers gp.defers } := by
      simp [markrootUnreachableStep, hu, gcGoexit]
    exact ⟨_, _, hstep.trans heq, rfl⟩
  · intro hd
    subst hd
    simp [markrootUnreachableStep, hu]
  · intro h0 h2
    simp [markrootUnreachableStep, hu, h0, h2]

/-- Witness for `C5_markroot_unreachable_policy` at `detect = 0` on an
unreachable channel-blocked fiber with two deferred calls. -/
theorem C5_markroot_unreachable_policy_witness :
    ((0 : Nat) = 0 → ∃ gp2 rel,
      markrootUnreachableStep 0
        (⟨100, GStatus.unreachable, WaitReason.chanReceive, 0, none, 2,
          none, none, none, none, []⟩ : GFiber) = Except.ok (gp2, rel, true) ∧
      gp2.status = GStatus.dead) ∧
    ((0 : Nat) = 2 → markrootUnreachableStep 0
        (⟨100, GStatus.unreachable, WaitReason.chanReceive, 0, none, 2,
          none, none, none, none, []⟩ : GFiber) =
      Except.ok ({ (⟨100, GStatus.unreachable, WaitReason.chanReceive, 0, none, 2,
          none, none, none, none, []⟩ : GFiber) with
            status := GStatus.deadlocked }, [], false)) ∧
    ((0 : Nat) ≠ 0 → (0 : Nat) ≠ 2 → markrootUnreachableStep 0
        (⟨100, GStatus.unreachable, WaitReason.chanReceive, 0, none, 2,
          none, none, none, none, []⟩ : GFiber) =
      Except.error "unreachable goroutine found during regular GC") :=
  C5_markroot_unreachable_policy 0
    ⟨100, GStatus.unreachable, WaitReason.chanReceive, 0, none, 2,
      none, none, none, none, []⟩ rfl
    ⟨rfl, rfl, by simp, by simp⟩

/-- `gc_release_waiting` is the pointwise clearing of the chain. -/
theorem gc_release_waiting_eq_map (l : List Sudog) :
    gc_release_waiting l = l.map clearChainSudog := by
  induction l with
  | nil => rfl
  | cons sg rest ih => simp [gc_release_waiting, ih]

/-- A fiber used to refute the claim that every released waiter has its
`g` field cleared: unreachable, parked on one channel sudog. -/
def c6gp : GFiber :=
  ⟨100, GStatus.unreachable, WaitReason.chanReceive, 0, none, 0,
    none, none, none, none,
    [⟨some 100, true, some 8, some 24, none, none, none, none, none, 0⟩]⟩

/-- **C6** (counterexample): reclaiming `c6gp` releases its channel sudog
with `isSelect`, `elem`, `c`, `waitlink`, `next`, `prev` cleared but with
`g` still pointing at the fiber — not every waiter returned to the pool
has its fiber field cleared. -/
theorem C6_waiting_chain_keeps_g_counterexample :
    gc_goexit0 c6gp = Except.ok
      ({ c6gp with status := GStatus.dead, lockedm := 0,
                   waitreason := WaitReason.zero, defers := 0,
                   waiting_sema := none, semaWaiter := none,
                   waiting_notifier := none, notifWaiter := none,
                   waiting := [] },
        [⟨some 100, false, none, none, none, none, none, none, none, 0⟩], true) ∧
    ¬ (∀ s ∈ [(⟨some 100, false, none, none, none, none, none, none, none,
        0⟩ : Sudog)], s.g = none) :=
  ⟨rfl, by decide⟩

/-- **C6** (amended): waiters dequeued from the sema treap and the
notifier list have `g` cleared before `releaseSudog`; the waiters on the
fiber's own `waiting` chain are released with `isSelect`, `elem`, `c`,
`waitlink`, `next`, `prev` cleared, but their `g` field is left as it
was. -/
theorem C6_reclaimer_release_fields (gp : GFiber)
    (hu : gp.status = GStatus.unreachable) (hc : reclaimConsistent gp) :
    ∃ pre, gc_goexit0 gp = Except.ok
        ({ gp with status := GStatus.dead, lockedm := 0,
                   waitreason := WaitReason.zero, defers := 0,
                   waiting_sema := none, semaWaiter := none,
                   waiting_notifier := none, notifWaiter := none,
                   waiting := [] },
          pre ++ gp.waiting.map clearChainSudog, true) ∧
      (∀ s ∈ pre, s.g = none) ∧
      (∀ sg : Sudog, (clearChainSudog sg).g = sg.g ∧
        (clearChainSudog sg).isSelect = false ∧
        (clearChainSudog sg).elem = none ∧ (clearChainSudog sg).c = none ∧
        (clearChainSudog sg).waitlink = none ∧
        (clearChainSudog sg).next = none ∧ (clearChainSudog sg).prev = none) := by
  obtain ⟨hm, hl, hsema, hnotif⟩ := hc
  obtain ⟨pre, heq, hpre⟩ := gc_goexit0_spec gp hu hm hl hsema hnotif
  rw [gc_release_waiting_eq_map] at heq
  exact ⟨pre, heq, hpre, fun sg => ⟨rfl, rfl, rfl, rfl, rfl, rfl, rfl⟩⟩

/-- Witness for `C6_reclaimer_release_fields` on `c6gp`. -/
theorem C6_reclaimer_release_fields_witness :
    ∃ pre, gc_goexit0 c6gp = Except.ok
        ({ c6gp with status := GStatus.dead, lockedm := 0,
                     waitreason := WaitReason.zero, defers := 0,
                     waiting_sema := none, semaWaiter := none,
                     waiting_notifier := none, notifWaiter := none,
                     waiting := [] },
          pre ++ c6gp.waiting.map clearChainSudog, true) ∧
      (∀ s ∈ pre, s.g = none) ∧
      (∀ sg : Sudog, (clearChainSudog sg).g = sg.g ∧
        (clearChainSudog sg).isSelect = false ∧
        (clearChainSudog sg).elem = none ∧ (clearChainSudog sg).c = none ∧
        (clearChainSudog sg).waitlink = none ∧
        (clearChainSudog sg).next = none ∧ (clearChainSudog sg).prev = none) :=
  C6_reclaimer_release_fields c6gp rfl ⟨rfl, rfl, by simp [c6gp], by simp [c6gp]⟩

end GoGC
